import Mathlib

/-! ## cxy-sdn: the resource allocator of `server/network.go`

A shallow embedding of the VLAN and IP allocation code of `server/network.go`
together with the network records built on it, and the properties of that code.

* Go byte slices are lists of byte values, Go `uint` is a natural number taken
  modulo `2 ^ 64` wherever the code subtracts.
* The distributed store behind `netAgent` is an explicit state; a call that
  reads and then conditionally writes takes the writes made by other nodes
  between its read and its write as an explicit argument.
* The retry loops (`releaseVlan`, `RequestIP`, `ReleaseIP`) recurse over the
  list of such interferences: one element per attempt, and no interference once
  the list is used up.  A call that is still rejected then has no result.
* For `releaseVlan`, and `DeleteNetwork` which calls it, an attempt also says
  whether the store fails the write, the third outcome of a `Put`.
-/

namespace CxySdn

/-! ## Byte slices and machine integers -/

/-- A Go byte slice. -/
abbrev Bytes := List Nat

/-- Go `make([]byte, n)`: a slice of `n` zero bytes. -/
def makeBytes (n : Nat) : Bytes := List.replicate n 0

/-- Go `copy(dst, src)`: the first `min (len dst) (len src)` elements of `dst`
are overwritten with those of `src`, the length of `dst` is kept. -/
def copyBytes (dst src : Bytes) : Bytes := src.take dst.length ++ dst.drop src.length

/-- Number of values of the Go type `uint` (64-bit target). -/
def uintSize : Nat := 2 ^ 64

/-- Subtraction on Go `uint`: wraps around modulo `2 ^ 64`. -/
def uintSub (a b : Nat) : Nat := (a % uintSize + uintSize - b % uintSize) % uintSize

/-! ## The bitmap helpers of package `util`

`util.TestAndSet` and `util.Clear` are called by `server/network.go`; their
bodies live in package `util`, outside `server/`. -/

/-- Modelled from the spec: the bit test underlying the bitmap helpers of package
`util`, whose bodies are outside `server/`. Bit `k` of a bitmap lives in byte
`k / 8`; within a byte the bits are numbered from the least significant one
(the spec leaves the order inside a byte open). A position outside the slice
reads as not set. -/
def testBit (a : Bytes) (k : Nat) : Bool :=
  match a[k / 8]? with
  | some b => b.testBit (k % 8)
  | none => false

/-- Modelled from the spec: the helper of package `util` that sets bit `k` of the
bitmap, its body outside `server/`. A position outside the slice leaves the
slice as it is. -/
def setBit (a : Bytes) (k : Nat) : Bytes :=
  match a[k / 8]? with
  | some b => a.set (k / 8) (b ||| 2 ^ (k % 8))
  | none => a

/-- Modelled from the spec: `util.Clear(a, k)`, its body outside `server/`,
"clears the corresponding bit". The spec describes positions inside the bitmap
only; here a position outside the slice leaves the slice as it is. -/
def Clear (a : Bytes) (k : Nat) : Bytes :=
  match a[k / 8]? with
  | some b => a.set (k / 8) (b &&& (255 ^^^ 2 ^ (k % 8)))
  | none => a

/-- The scan of `TestAndSet`: the lowest position `j` with `i ≤ j < i + n` whose
bit is clear. -/
def firstClearFrom (a : Bytes) : Nat → Nat → Option Nat
  | 0, _ => none
  | n + 1, i => if testBit a i then firstClearFrom a n (i + 1) else some i

/-- Modelled from the spec: `util.TestAndSet(a)`, its body outside `server/`,
"scans for the lowest-numbered clear bit, sets it" and returns the slot it
stands for; "bit i set ⇔ VLAN i+1 in use", so bit `i` is reported as `i + 1`.
When no bit is clear it "returns an out-of-range index (beyond 4096)", that is
one past the last slot of the bitmap, and changes nothing. The Go function
updates the slice in place: the updated slice is the second component. -/
def TestAndSet (a : Bytes) : Nat × Bytes :=
  match firstClearFrom a (8 * a.length) 0 with
  | some i => (i + 1, setBit a i)
  | none => (8 * a.length + 1, a)

/-! ## The store behind `netAgent` -/

/-- Contents of the distributed store: store name, then key. -/
abbrev Store := String → String → Option Bytes

/-- The outcome of a store write: `netAgent.OK`, `netAgent.OUTDATED`, or another
error. -/
inductive Eccerror where
  | OK
  | OUTDATED
  | ERROR
  deriving DecidableEq, Repr

/-- The store with nothing in it. -/
def emptyStore : Store := fun _ _ => none

/-- The store with `key` of `store` bound to `v`. -/
def storeSet (s : Store) (store key : String) (v : Bytes) : Store :=
  fun st k => if st = store ∧ k = key then some v else s st k

/-- Modelled from the spec: `netAgent.Get(store, key) → (value, meta, found)` of
the external store library; `none` is "not found". -/
def Get (s : Store) (store key : String) : Option Bytes := s store key

/-- Modelled from the spec: `netAgent.Put(store, key, newValue, expectedOldValue)`
of the external store library, a "conditional write that succeeds only if the
stored value still equals the value last read by the caller". A key that is not
in the store yet has no value to compare with and is written (the callers read
such a key as an all-zero bitmap and pass that as the expected value). This is
the `Put` of a store that carries the write out, with the outcomes `OK` and
`OUTDATED`; `PutOrFail` adds the third outcome. -/
def Put (s : Store) (store key : String) (value oldVal : Bytes) : Eccerror × Store :=
  match s store key with
  | some cur =>
    if cur = oldVal then (.OK, storeSet s store key value) else (.OUTDATED, s)
  | none => (.OK, storeSet s store key value)

/-- Modelled from the spec: `netAgent.Put` with the three outcomes the spec gives
it, "{OK, OUTDATED, error}". A store that cannot carry the write out (`fails`)
answers the error and writes nothing; otherwise the answer is that of `Put`. -/
def PutOrFail (fails : Bool) (s : Store) (store key : String) (value oldVal : Bytes) :
    Eccerror × Store :=
  if fails then (.ERROR, s) else Put s store key value oldVal

/-- What one pass through a retry loop meets: `before`, the writes other nodes
make between its `Get` and its `Put`, and `fails`, whether the store fails its
`Put`. -/
structure Attempt where
  before : Store → Store
  fails : Bool

def networkStore : String := "network"
def vlanStore : String := "vlan"
def ipStore : String := "ip"
def vlanCount : Nat := 4096

/-! ## VLAN allocation -/

/-- What a call of `allocateVlan` leaves behind: the two values it returns, and
the answer of the `netAgent.Put` it issued (`none` when it issued none). The Go
code drops that answer. -/
structure VlanResult where
  vlanID : Nat
  err : Option String
  put : Option Eccerror
  deriving DecidableEq, Repr

/-- The reading half of `allocateVlan` (network.go, lines 135-143): the bitmap
read from the store, all-zero when the key is not there, and the copy `curVal`
taken of it. -/
def allocateVlanRead (s : Store) : Bytes × Bytes :=
  let vlanBytes :=
    match Get s vlanStore "vlan" with
    | some b => b
    | none => makeBytes (vlanCount / 8)
  let curVal := copyBytes (makeBytes (vlanCount / 8)) vlanBytes
  (vlanBytes, curVal)

/-- The writing half of `allocateVlan` (network.go, lines 145-153), run on the
store as it is by then. -/
def allocateVlanWrite (vlanBytes curVal : Bytes) (s : Store) : VlanResult × Store :=
  let r := TestAndSet vlanBytes
  let vlanID := r.1
  let vlanBytes := r.2
  if vlanID > vlanCount then
    (⟨vlanID, some "All vlanID have been used", none⟩, s)
  else
    let p := Put s vlanStore "vlan" vlanBytes curVal
    (⟨vlanID, none, some p.1⟩, p.2)

/-- `allocateVlan` (network.go, lines 134-155). `e` is what other nodes do to
the store between the `Get` and the `Put` of this call. -/
def allocateVlan (e : Store → Store) (s : Store) : VlanResult × Store :=
  let r := allocateVlanRead s
  allocateVlanWrite r.1 r.2 (e s)

/-- One pass through the body of `releaseVlan` (network.go, lines 158-170);
`retry` stands for the recursive call taken on `OUTDATED`. Any other answer of
the `Put`, `OK` or an error, ends the call. -/
def releaseVlanBody (vlanID : Nat) (a : Attempt) (retry : Store → Option Store)
    (s : Store) : Option Store :=
  let oldVal :=
    match Get s vlanStore "vlan" with
    | some b => b
    | none => makeBytes (vlanCount / 8)
  let curVal := copyBytes (makeBytes (vlanCount / 8)) oldVal
  let curVal := Clear curVal (uintSub vlanID 1)
  let p := PutOrFail a.fails (a.before s) vlanStore "vlan" curVal oldVal
  if p.1 = .OUTDATED then retry p.2 else some p.2

/-- `releaseVlan` (network.go, lines 157-171): the store it leaves, `none` when
it is still retrying after the last listed attempt. Past the list there is no
interference and the store does not fail. -/
def releaseVlan (vlanID : Nat) : List Attempt → Store → Option Store
  | [], s => releaseVlanBody vlanID ⟨id, false⟩ (fun _ => none) s
  | a :: rest, s => releaseVlanBody vlanID a (releaseVlan vlanID rest) s

/-! ## IP allocation -/

/-- A Go `net.IPNet` of an IPv4 network, as `net.ParseCIDR` builds it: the
4-byte network address `IP`, and the mask given by its number of leading ones. -/
structure IPNet where
  IP : Bytes
  ones : Nat
  deriving DecidableEq, Repr

/-- Go `net.IP.String()` on a 4-byte address: dotted decimal; `"<nil>"` for the
nil address. -/
def ipString (ip : Bytes) : String :=
  if ip = [] then "<nil>" else String.intercalate "." (ip.map toString)

/-- Go `net.IPNet.String()` on an IPv4 network: the address, a slash, the
number of leading ones of the mask. -/
def subnetString (subnet : IPNet) : String :=
  ipString subnet.IP ++ "/" ++ toString subnet.ones

/-- Go `binary.Read(buf, binary.BigEndian, &num)` where `num` has the Go type
`uint`, as declared in `RequestIP` and `ReleaseIP`. Package `encoding/binary`
decodes fixed-size values only (`uint8` ... `uint64`, their signed forms,
floats): `uint` is none of them, so the call reads nothing, leaves `num` as it
was and returns the error "binary.Read: invalid type *uint". (Were a `uint`
decoded as its 8 bytes, the 4 bytes of an IPv4 address would run out and the
call would fail as well.) The result is the error and the value of `num` after
the call. -/
def binaryReadUint (_buf : Bytes) (num : Nat) : Option String × Nat :=
  (some "binary.Read: invalid type *uint", num)

/-- Go `binary.Write(buf2, binary.BigEndian, num)` where `num` has the Go type
`uint`: for the same reason nothing is written and an error is returned. The
result is the error and the bytes of the buffer after the call. -/
def binaryWriteUint (_num : Nat) : Option String × Bytes :=
  (some "binary.Write: invalid type uint", [])

/-- The network record of network.go. -/
structure Network where
  Name : String
  Subnet : String
  Gateway : String
  VlanID : Nat
  deriving DecidableEq, Repr

/-- Go `&Network{}`: the record with every field at its zero value. -/
def Network.zero : Network := ⟨"", "", "", 0⟩

/-- What `server/network.go` takes from outside `server/`.
* `IPCount`: `util.IPCount(subnet)`, the number of addresses of the subnet (a
  whole number, returned as a `float64`);
* `GetIfaceAddr`: whether `util.GetIfaceAddr(name)` finds the interface, that is
  returns a nil error;
* `Unmarshal`: `json.Unmarshal(bytes, network)` into a fresh `Network`. -/
structure Env where
  IPCount : IPNet → Nat
  GetIfaceAddr : String → Bool
  Unmarshal : Bytes → Except String Network

/-- One pass through the body of `RequestIP` (network.go, lines 217-261);
`retry` stands for the recursive call taken on `OUTDATED`. The result is the
address returned (`none` is Go `nil`) and the store. `ipCount / 8` and
`math.Mod(ipCount, 8)` are taken on a whole number. -/
def RequestIPBody (env : Env) (subnet : IPNet) (e : Store → Store)
    (retry : Store → Option (Option Bytes × Store)) (s : Store) :
    Option (Option Bytes × Store) :=
  let ipCount := env.IPCount subnet
  let bc := ipCount / 8
  let part := ipCount % 8
  let bc := if part ≠ 0 then bc + 1 else bc
  let oldArray :=
    match Get s ipStore (subnetString subnet) with
    | some b => b
    | none => makeBytes bc
  let newArray := copyBytes (makeBytes oldArray.length) oldArray
  let r := TestAndSet newArray
  let pos := r.1
  let newArray := r.2
  let p := Put (e s) ipStore (subnetString subnet) newArray oldArray
  if p.1 = .OUTDATED then retry p.2
  else
    let rd := binaryReadUint subnet.IP 0
    if rd.1.isSome then some (none, p.2)
    else
      let num := (rd.2 + pos) % uintSize
      let wr := binaryWriteUint num
      if wr.1.isSome then some (none, p.2)
      else some (some wr.2, p.2)

/-- `RequestIP` (network.go, lines 216-263): `none` when it is still retrying
after the last listed interference. -/
def RequestIP (env : Env) (subnet : IPNet) :
    List (Store → Store) → Store → Option (Option Bytes × Store)
  | [], s => RequestIPBody env subnet id (fun _ => none) s
  | e :: es, s => RequestIPBody env subnet e (RequestIP env subnet es) s

/-- One pass through the body of `ReleaseIP` (network.go, lines 267-294). The
record is read under the key `subnet.IP.String()` and written under the key
`subnet.String()`; `num1` is read from the stored bitmap, `num2` from the
network address, and `addr` is not used. -/
def ReleaseIPBody (_addr : Bytes) (subnet : IPNet) (e : Store → Store)
    (retry : Store → Option (Bool × Store)) (s : Store) : Option (Bool × Store) :=
  match Get s ipStore (ipString subnet.IP) with
  | none => some (false, s)
  | some oldArray =>
    let newArray := copyBytes (makeBytes oldArray.length) oldArray
    let num1 := (binaryReadUint oldArray 0).2
    let num2 := (binaryReadUint subnet.IP 0).2
    let pos := uintSub (uintSub num1 num2) 1
    let newArray := Clear newArray pos
    let p := Put (e s) ipStore (subnetString subnet) newArray oldArray
    if p.1 = .OUTDATED then retry p.2 else some (true, p.2)

/-- `ReleaseIP` (network.go, lines 266-295): `none` when it is still retrying
after the last listed interference. -/
def ReleaseIP (addr : Bytes) (subnet : IPNet) :
    List (Store → Store) → Store → Option (Bool × Store)
  | [], s => ReleaseIPBody addr subnet id (fun _ => none) s
  | e :: es, s => ReleaseIPBody addr subnet e (ReleaseIP addr subnet es) s

/-! ## Network records -/

/-- `GetNetwork` (network.go, lines 49-62). -/
def GetNetwork (env : Env) (name : String) (s : Store) : Except String Network :=
  match Get s networkStore name with
  | some netByte =>
    match env.Unmarshal netByte with
    | .error err => .error err
    | .ok network => .ok network
  | none => .error ("Network " ++ name ++ " not exist")

/-- `CreateNetwork` (network.go, lines 80-110). `e` is the interference met by
`allocateVlan`, `es` those met by `RequestIP`. The record assembled at line 105
is assigned to the local `network` and not used again: line 108 returns
`&Network{}`. -/
def CreateNetwork (env : Env) (name : String) (subnet : IPNet) (e : Store → Store)
    (es : List (Store → Store)) (s : Store) : Option (Except String Network × Store) :=
  match GetNetwork env name s with
  | .ok network => some (.ok network, s)
  | .error _ =>
    let a := allocateVlan e s
    match a.1.err with
    | some err => some (.error err, a.2)
    | none =>
      if env.GetIfaceAddr name then some (.ok Network.zero, a.2)
      else
        match RequestIP env subnet es a.2 with
        | none => none
        | some (gateway, s2) =>
          let _network : Network :=
            ⟨name, subnetString subnet, ipString (gateway.getD []), a.1.vlanID⟩
          some (.ok Network.zero, s2)

/-- Where a call of `allocateVlan` stands: not started, between its `Get` and
its `Put` (holding the two slices it built), or returned. -/
inductive VlanCall where
  | start
  | read (vlanBytes curVal : Bytes)
  | done (r : VlanResult)
  deriving DecidableEq, Repr

/-- One atomic step of a call: its `Get`, then everything from the scan to the
`return`, in which the `Put` is the only access to the store. -/
def stepVlanCall (s : Store) : VlanCall → VlanCall × Store
  | .start => let r := allocateVlanRead s; (.read r.1 r.2, s)
  | .read vlanBytes curVal =>
    let r := allocateVlanWrite vlanBytes curVal s
    (.done r.1, r.2)
  | .done r => (.done r, s)

/-- Runs concurrent calls under a schedule: each entry names the call that takes
its next step. -/
def runVlanCalls : List Nat → List VlanCall × Store → List VlanCall × Store
  | [], st => st
  | i :: sched, st =>
    match st.1[i]? with
    | none => runVlanCalls sched st
    | some c =>
      let r := stepVlanCall st.2 c
      runVlanCalls sched (st.1.set i r.1, r.2)

/-- The IDs returned with a nil error by the calls that have returned. -/
def allocatedIDs (calls : List VlanCall) : List Nat :=
  calls.filterMap fun c =>
    match c with
    | .done r => if r.err = none then some r.vlanID else none
    | _ => none

/-! ## Scenarios and concrete inputs -/

/-- The round trip on the IP pool of `subnet`: `RequestIP`, then `ReleaseIP` of
the address obtained, then `RequestIP` again, nothing else touching the store.
The result lists the first address, the answer of `ReleaseIP`, the second
address, and the store in the end. -/
def ipRoundTrip (env : Env) (subnet : IPNet) (s : Store) :
    Option (Option Bytes × Bool × Option Bytes × Store) :=
  (RequestIP env subnet [] s).bind fun r1 =>
    (ReleaseIP (r1.1.getD []) subnet [] r1.2).bind fun r2 =>
      (RequestIP env subnet [] r2.2).map fun r3 => (r1.1, r2.1, r3.1, r3.2)

/-- The VLAN bitmap as the store holds it; a key that is not there reads as the
empty bitmap, all of whose bits are clear. -/
def vlanBitmap (s : Store) : Bytes := (s vlanStore "vlan").getD []

/-- The network 10.1.0.0/24. -/
def subnet0 : IPNet := ⟨[10, 1, 0, 0], 24⟩

/-- An environment: 254 addresses in a subnet, no interface of the given name on
the host, and no byte string that decodes to a network record. -/
def env0 : Env :=
  ⟨fun _ => 254, fun _ => false, fun _ => .error "unexpected end of JSON input"⟩

/-- Another node taking VLAN 1: it writes the bitmap with bit 0 set. -/
def otherNode : Store → Store :=
  fun s => storeSet s vlanStore "vlan" (setBit (makeBytes 512) 0)

/-- The VLAN bitmap with all of its 4096 bits set. -/
def fullBitmap : Bytes := List.replicate 512 255

/-- A store whose VLAN bitmap is full. -/
def fullStore : Store := storeSet emptyStore vlanStore "vlan" fullBitmap

/-- A store in which the pool of 10.1.0.0/24 has bits 1 and 2 set, under the key
`ReleaseIP` reads and under the key it writes. -/
def leaseStore : Store :=
  storeSet (storeSet emptyStore ipStore "10.1.0.0" (6 :: List.replicate 31 0))
    ipStore "10.1.0.0/24" (6 :: List.replicate 31 0)

/-- The record of a network named blue, holding VLAN 7. -/
def blueNet : Network := ⟨"blue", "10.1.0.0/24", "10.1.0.1", 7⟩

/-- The bytes of the JSON text of `blueNet`, as `json.Marshal` writes a `Network`. -/
def blueJSON : Bytes :=
  ("\x7b\"name\":\"blue\",\"subnet\":\"10.1.0.0/24\",\"gateway\":\"10.1.0.1\","
    ++ "\"vlanid\":7\x7d").toList.map Char.toNat

/-- An environment in which `blueJSON` decodes to `blueNet`. -/
def envBlue : Env :=
  ⟨fun _ => 254, fun _ => false,
    fun b => if b = blueJSON then .ok blueNet else .error "invalid character"⟩

/-- A store holding the record of blue and a VLAN bitmap with bits 0 and 6 set. -/
def blueStore : Store :=
  storeSet (storeSet emptyStore networkStore "blue" blueJSON)
    vlanStore "vlan" (65 :: List.replicate 511 0)

/-! ## The OVS driver (`server/ovs_driver.go`) -/

/-- A column value as the driver builds it for a row, a mutation or a condition:
a string, a boolean, a number, a `libovsdb.UUID`, a set of them
(`libovsdb.NewOvsSet`) or a string map (`libovsdb.NewOvsMap`). -/
inductive OvsValue where
  | str (s : String)
  | bool (b : Bool)
  | num (n : Nat)
  | uuid (id : String)
  | uuidSet (ids : List String)
  | strMap (kv : List (String × String))
  deriving DecidableEq, Repr

/-- A `libovsdb.Operation`, with the fields the driver fills in. A mutation is
column, mutator, value; a condition is column, function, value. -/
structure Operation where
  Op : String
  Table : String
  Row : List (String × OvsValue)
  UUIDName : String
  Mutations : List (String × String × OvsValue)
  Where : List (String × String × OvsValue)
  deriving DecidableEq, Repr

/-- A `libovsdb.Row`: its `Fields` map, `none` for the nil map of `libovsdb.Row{}`. -/
structure Row where
  Fields : Option (List (String × OvsValue))
  deriving DecidableEq, Repr

/-- Go `libovsdb.Row{}`, the value `populateCache` compares with. By
`reflect.DeepEqual` a row equals it exactly when its `Fields` map is nil. -/
def Row.empty : Row := ⟨none⟩

/-- A `libovsdb.OperationResult`, the reply to one statement; `UUID` is
`UUID.GoUuid`. -/
structure OperationResult where
  Count : Nat
  Error : String
  Details : String
  UUID : String
  Rows : List Row
  deriving DecidableEq, Repr

/-- The `libovsdb.OvsdbClient` as the driver uses it: `Transact(database,
operations...)` returns the replies of the switch. -/
structure OvsdbClient where
  Transact : String → List Operation → List OperationResult

/-- The loop `for i, o := range reply` shared by the transactional functions of
the driver: the message of the first reply with a non-empty `Error`; `inOps`
builds it when `i < len(operations)`, `extra` otherwise. `none` when the loop
runs to its end. -/
def replyError (n : Nat) (inOps : Nat → OperationResult → String)
    (extra : OperationResult → String) : Nat → List OperationResult → Option String
  | _, [] => none
  | i, o :: rest =>
    if o.Error ≠ "" ∧ i < n then some (inOps i o)
    else if o.Error ≠ "" then some (extra o)
    else replyError n inOps extra (i + 1) rest

/-- The four statements of `CreateOVSBridge` (ovs_driver.go, lines 49-106);
`rootUuid` is what `getRootUuid()` returns. -/
def createBridgeOperations (rootUuid bridgeName : String) : List Operation :=
  let namedBridgeUuid := "bridge"
  let namedPortUuid := "port"
  let namedIntfUuid := "intf"
  let intf := [("name", OvsValue.str bridgeName), ("type", OvsValue.str "internal")]
  let insertIntfOp : Operation := ⟨"insert", "Interface", intf, namedIntfUuid, [], []⟩
  let port := [("name", OvsValue.str bridgeName), ("interfaces", OvsValue.uuid namedIntfUuid)]
  let insertPortOp : Operation := ⟨"insert", "Port", port, namedPortUuid, [], []⟩
  let bridge := [("name", OvsValue.str bridgeName), ("stp_enable", OvsValue.bool true),
    ("ports", OvsValue.uuid namedPortUuid)]
  let insertBridgeOp : Operation := ⟨"insert", "Bridge", bridge, namedBridgeUuid, [], []⟩
  let mutation := ("bridges", "insert", OvsValue.uuidSet [namedBridgeUuid])
  let condition := ("_uuid", "==", OvsValue.uuid rootUuid)
  let mutateOp : Operation := ⟨"mutate", "Open_vSwitch", [], "", [mutation], [condition]⟩
  [insertIntfOp, insertPortOp, insertBridgeOp, mutateOp]

/-- `CreateOVSBridge` (ovs_driver.go, lines 48-120): the string and the error
returned (`none` is Go `nil`). Line 119 returns `reply[0].UUID.GoUuid`. -/
def CreateOVSBridge (ovsClient : OvsdbClient) (rootUuid bridgeName : String) :
    String × Option String :=
  let operations := createBridgeOperations rootUuid bridgeName
  let reply := ovsClient.Transact "Open_vSwitch" operations
  if reply.length < operations.length then
    ("", some "Number of Replies should be atleast equal to number of Operations")
  else
    let msg := fun (o : OperationResult) =>
      "Transaction Failed due to an error :" ++ o.Error ++ " details : " ++ o.Details
    match replyError operations.length (fun _ o => msg o) msg 0 reply with
    | some err => ("", some err)
    | none =>
      match reply with
      | o :: _ => (o.UUID, none)
      | [] => ("", none)

/-- The two statements of `DeleteOVSBridge` (ovs_driver.go, lines 123-147). -/
def deleteBridgeOperations (rootUuid bridgeName bridgeUuid : String) : List Operation :=
  let deleteOp : Operation :=
    ⟨"delete", "Bridge", [], "", [], [("name", "==", OvsValue.str bridgeName)]⟩
  let mutation := ("bridges", "delete", OvsValue.uuidSet [bridgeUuid])
  let condition := ("_uuid", "==", OvsValue.uuid rootUuid)
  let mutateOp : Operation := ⟨"mutate", "Open_vSwitch", [], "", [mutation], [condition]⟩
  [deleteOp, mutateOp]

/-- `DeleteOVSBridge` (ovs_driver.go, lines 122-162): the error returned. -/
def DeleteOVSBridge (ovsClient : OvsdbClient) (rootUuid bridgeName bridgeUuid : String) :
    Option String :=
  let operations := deleteBridgeOperations rootUuid bridgeName bridgeUuid
  let reply := ovsClient.Transact "Open_vSwitch" operations
  if reply.length < operations.length then
    some "Number of Replies should be at least equal to number of Operations"
  else
    let msg := fun (o : OperationResult) =>
      "Transaction Failed due to an error : " ++ o.Error ++ " details : " ++ o.Details
    replyError operations.length (fun _ o => msg o) msg 0 reply

/-- The statement of `UpdatePortContext` (ovs_driver.go, lines 307-323). -/
def updatePortContextOperations (portName key context : String) : List Operation :=
  let config := [("container_id", key), ("container_data", context)]
  let mutation := ("other_config", "insert", OvsValue.strMap config)
  let condition := ("name", "==", OvsValue.str portName)
  let mutateOp : Operation := ⟨"mutate", "Interface", [], "", [mutation], [condition]⟩
  [mutateOp]

/-- `UpdatePortContext` (ovs_driver.go, lines 306-336): the error returned.
`fmtOp` is how Go `fmt` prints an operation; `fmt.Sprintln` puts a blank between
its operands and a newline at the end. -/
def UpdatePortContext (ovsClient : OvsdbClient) (fmtOp : Operation → String)
    (portName key context : String) : Option String :=
  let operations := updatePortContextOperations portName key context
  let reply := ovsClient.Transact "Open_vSwitch" operations
  if reply.length < operations.length then
    some "Number of Replies should be atleast equal to number of Operations"
  else
    replyError operations.length
      (fun i o => "Transaction Failed due to an error :" ++ " " ++ o.Error ++ " "
        ++ " details:" ++ " " ++ o.Details ++ " " ++ " in " ++ " "
        ++ (operations[i]?.map fmtOp).getD "" ++ "\n")
      (fun o => "Transaction Failed due to an error :" ++ " " ++ o.Error ++ "\n")
      0 reply

/-- The three statements of `AddInternalPort` (ovs_driver.go, lines 339-384); the
port row gets a `tag` only when `tag` is not zero. -/
def addInternalPortOperations (bridgeName portName : String) (tag : Nat) : List Operation :=
  let namedPortUuid := "port"
  let namedIntfUuid := "intf"
  let intf := [("name", OvsValue.str portName), ("type", OvsValue.str "internal")]
  let insertIntfOp : Operation := ⟨"insert", "Interface", intf, namedIntfUuid, [], []⟩
  let port := [("name", OvsValue.str portName), ("interfaces", OvsValue.uuid namedIntfUuid)]
  let port := if tag ≠ 0 then port ++ [("tag", OvsValue.num tag)] else port
  let insertPortOp : Operation := ⟨"insert", "Port", port, namedPortUuid, [], []⟩
  let mutation := ("ports", "insert", OvsValue.uuidSet [namedPortUuid])
  let condition := ("name", "==", OvsValue.str bridgeName)
  let mutateOp : Operation := ⟨"mutate", "Bridge", [], "", [mutation], [condition]⟩
  [insertIntfOp, insertPortOp, mutateOp]

/-- `AddInternalPort` (ovs_driver.go, lines 338-400): the error returned. `fmtOp`
is how Go `fmt` prints an operation under `%v`. -/
def AddInternalPort (ovsClient : OvsdbClient) (fmtOp : Operation → String)
    (bridgeName portName : String) (tag : Nat) : Option String :=
  let operations := addInternalPortOperations bridgeName portName tag
  let reply := ovsClient.Transact "Open_vSwitch" operations
  if reply.length < operations.length then
    some "Number of Replies should be atleast equal to number of Operations"
  else
    replyError operations.length
      (fun i o => "Transaction Failed due to an error : " ++ o.Error ++ " details: "
        ++ o.Details ++ " in " ++ (operations[i]?.map fmtOp).getD "")
      (fun o => "Transaction Failed due to an error : " ++ o.Error)
      0 reply

/-- What the spec calls a failed transaction: fewer replies than statements, or
a reply that carries a non-empty error string. -/
def replyFailed (operations : List Operation) (reply : List OperationResult) : Prop :=
  reply.length < operations.length ∨ ∃ o ∈ reply, o.Error ≠ ""

/-! ## The table cache of the driver -/

/-- A `libovsdb.RowUpdate`: the row before and after the change. -/
structure RowUpdate where
  Uuid : String
  New : Row
  Old : Row
  deriving DecidableEq, Repr

/-- A `libovsdb.TableUpdate`: its `Rows` map from row identifier to row update. A
Go map is a list of bindings here, ranged over in list order; its keys are
pairwise distinct, the order is any. -/
structure TableUpdate where
  Rows : List (String × RowUpdate)
  deriving DecidableEq, Repr

/-- The `Updates` map of a `libovsdb.TableUpdates`, from table name to table
update, as a list of bindings. -/
abbrev TableUpdates := List (String × TableUpdate)

/-- What makes the lists of a `TableUpdates` Go maps: no table name twice, and in
each table no row identifier twice. -/
def TableUpdates.distinctKeys (updates : TableUpdates) : Prop :=
  (updates.map Prod.fst).Nodup ∧ ∀ p ∈ updates, (p.2.Rows.map Prod.fst).Nodup

/-- One table of the cache, `map[string]libovsdb.Row`. -/
abbrev CacheTable := String → Option Row

/-- The package variable `cache`, `map[string]map[string]libovsdb.Row`. -/
abbrev Cache := String → Option CacheTable

/-- The row the cache holds for `uuid` in `table`, `cache[table][uuid]` with its
presence. -/
def cacheRow (cache : Cache) (table uuid : String) : Option Row :=
  (cache table).bind fun t => t uuid

/-- The inner loop of `populateCache` (ovs_driver.go, lines 408-415) on the map
`cache[table]`. -/
def populateRows (t : CacheTable) : List (String × RowUpdate) → CacheTable
  | [] => t
  | (uuid, row) :: rest =>
    if row.New ≠ Row.empty then
      populateRows (fun k => if k = uuid then some row.New else t k) rest
    else
      populateRows (fun k => if k = uuid then none else t k) rest

/-- `populateCache` (ovs_driver.go, lines 402-417): the cache after the call. -/
def populateCache (cache : Cache) : TableUpdates → Cache
  | [] => cache
  | (table, tableUpdate) :: rest =>
    let cache1 : Cache :=
      if (cache table).isNone then
        fun k => if k = table then some (fun _ => none) else cache k
      else cache
    let t : CacheTable := (cache1 table).getD (fun _ => none)
    populateCache (fun k => if k = table then some (populateRows t tableUpdate.Rows) else cache1 k)
      rest

/-! ## Membership notifications (`server/backend.go`) -/

/-- The `netAgent.NotifyUpdateType` of a notification; `NOTIFY_UPDATE_MODIFY`
stands for any value that is neither an add nor a delete. -/
inductive NotifyUpdateType where
  | NOTIFY_UPDATE_ADD
  | NOTIFY_UPDATE_MODIFY
  | NOTIFY_UPDATE_DELETE
  deriving DecidableEq, Repr

/-- A call made by the listener to the tunnel functions `AddPeer` and
`DeletePeer`, which are defined outside `backend.go`. -/
inductive PeerCall where
  | AddPeer (addr : String)
  | DeletePeer (addr : String)
  deriving DecidableEq, Repr

/-- `Listener.NotifyNodeUpdate` (backend.go, lines 45-57): the calls it makes, in
order. `myIp` is the first value `util.MyIP()` returns; its error is dropped. -/
def NotifyNodeUpdate (myIp : String) (nType : NotifyUpdateType) (nodeAddr : String) :
    List PeerCall :=
  if nType = .NOTIFY_UPDATE_ADD then
    if nodeAddr ≠ myIp then [.AddPeer nodeAddr] else []
  else if nType = .NOTIFY_UPDATE_DELETE then [.DeletePeer nodeAddr]
  else []

/-! ## Connections (`server/api.go`) -/

/-- The `Connection` record of api.go; `ConnectionDetail` has a type declared
outside api.go and is kept as its fields by name. -/
structure Connection where
  ContainerID : String
  ContainerName : String
  ContainerPID : String
  Network : String
  OvsPortID : String
  ConnectionDetail : List (String × String)
  deriving DecidableEq, Repr

/-- The action of a connection command. -/
inductive ConnectionAction where
  | addConn
  | deleteConn
  deriving DecidableEq, Repr

/-- A command sent on `connectionChan`: `ConnectionCtx` without its reply
channel, which is made fresh for every command. -/
structure ConnectionCtx where
  Action : ConnectionAction
  Connection : Connection
  deriving DecidableEq, Repr

/-- The part of the `Daemon` that `delConn` touches: the `connections` map and
the commands sent on `connectionChan` so far, oldest first. -/
structure Daemon where
  connections : String → Option Connection
  connectionChan : List ConnectionCtx

/-- The `HttpErr` of api.go. -/
structure HttpErr where
  code : Nat
  message : String
  deriving DecidableEq, Repr

/-- `delConn` (api.go, lines 331-351) for the container `containerId` of the
request: the error returned (`none` is Go `nil`) and the daemon. For a known
container the command is sent and the handler waits for the reply of the
command loop before it returns. -/
def delConn (d : Daemon) (containerId : String) : Option HttpErr × Daemon :=
  match d.connections containerId with
  | none => (some ⟨404, "container not found"⟩, d)
  | some con => (none, ⟨d.connections, d.connectionChan ++ [⟨.deleteConn, con⟩]⟩)

/-! ## Gateway addresses (`server/network.go`) -/

/-- The table `gatewayAddrs` of network.go, lines 19-37. -/
def gatewayAddrs : List String :=
  [ "10.1.42.1/16",
    "10.42.42.1/16",
    "172.16.42.1/24",
    "172.16.43.1/24",
    "172.16.44.1/24",
    "10.0.42.1/24",
    "10.0.43.1/24",
    "172.17.42.1/16",
    "10.0.42.1/16",
    "192.168.42.1/24",
    "192.168.43.1/24",
    "192.168.44.1/24" ]

/-- The loop of `GetAvailableGwAddress` (network.go, lines 180-190) over the
addresses left: `.error` is the return from inside the loop, `.ok` the value of
`gwaddr` when the loop is left. `ParseCIDR` is Go `net.ParseCIDR`, giving the
network of the address or an error; `CheckRouteOverlaps` is
`util.CheckRouteOverlaps`, giving its error (`none` is Go `nil`). -/
def scanGatewayAddrs (ParseCIDR : String → Except String IPNet)
    (CheckRouteOverlaps : IPNet → Option String) : List String → Except String String
  | [] => .ok ""
  | addr :: rest =>
    match ParseCIDR addr with
    | .error err => .error err
    | .ok dockerNetwork =>
      match CheckRouteOverlaps dockerNetwork with
      | some _ => scanGatewayAddrs ParseCIDR CheckRouteOverlaps rest
      | none => .ok addr

/-- `GetAvailableGwAddress` (network.go, lines 172-196): the address and the
error returned. -/
def GetAvailableGwAddress (ParseCIDR : String → Except String IPNet)
    (CheckRouteOverlaps : IPNet → Option String) (bridgeIP : String) :
    String × Option String :=
  let finish := fun (gwaddr : String) =>
    if gwaddr = "" then ("", some "No available gateway addresses") else (gwaddr, none)
  if bridgeIP.length ≠ 0 then
    match ParseCIDR bridgeIP with
    | .error err => ("", some err)
    | .ok _ => finish bridgeIP
  else
    match scanGatewayAddrs ParseCIDR CheckRouteOverlaps gatewayAddrs with
    | .error err => ("", some err)
    | .ok gwaddr => finish gwaddr

/-- Whether the network `ParseCIDR` reads from `addr` passes
`CheckRouteOverlaps`. -/
def passesRouteCheck (ParseCIDR : String → Except String IPNet)
    (CheckRouteOverlaps : IPNet → Option String) (addr : String) : Bool :=
  match ParseCIDR addr with
  | .ok dockerNetwork => (CheckRouteOverlaps dockerNetwork).isNone
  | .error _ => false

/-! ## Concrete inputs for the driver, the listener, the API and the gateways -/

/-- The replies to a bridge creation in which all four statements succeed, each
insert carrying the identifier of the row it made. -/
def bridgeReplies : List OperationResult :=
  [⟨1, "", "", "uuid-of-interface", []⟩, ⟨1, "", "", "uuid-of-port", []⟩,
    ⟨1, "", "", "uuid-of-bridge", []⟩, ⟨1, "", "", "", []⟩]

/-- A switch that answers every transaction with `bridgeReplies`. -/
def bridgeClient : OvsdbClient := ⟨fun _ _ => bridgeReplies⟩

/-- A row with one column, `name`. -/
def namedRow (name : String) : Row := ⟨some [("name", OvsValue.str name)]⟩

/-- A cache with the ports p1 and p2 in its table Port and no other table. -/
def cache0 : Cache :=
  fun table =>
    if table = "Port" then
      some fun uuid =>
        if uuid = "p1" then some (namedRow "eth1")
        else if uuid = "p2" then some (namedRow "eth2")
        else none
    else none

/-- The update of table Port that deletes port p1 and inserts port p3. -/
def portUpdate0 : TableUpdate :=
  ⟨[("p1", ⟨"p1", Row.empty, namedRow "eth1"⟩), ("p3", ⟨"p3", namedRow "eth3", Row.empty⟩)]⟩

/-- The update of table Bridge that inserts bridge b1. -/
def bridgeUpdate0 : TableUpdate := ⟨[("b1", ⟨"b1", namedRow "ovs-br0", Row.empty⟩)]⟩

/-- A batch that deletes port p1, inserts port p3 and inserts bridge b1. -/
def updates0 : TableUpdates := [("Port", portUpdate0), ("Bridge", bridgeUpdate0)]

/-- A daemon that knows the container c1 and has sent no command yet. -/
def daemon0 : Daemon :=
  ⟨fun k => if k = "c1" then some ⟨"c1", "web", "4242", "default", "ovs-port-1", []⟩ else none,
    []⟩

/-- A decimal number read from digits: `none` when there is no digit or anything
else than digits. -/
def readDecimal (cs : List Char) : Option Nat :=
  if cs = [] ∨ cs.all Char.isDigit = false then none
  else some (cs.foldl (fun n c => 10 * n + (c.toNat - 48)) 0)

/-- The pieces of a text between the occurrences of `sep`. -/
def splitOnChar (sep : Char) : List Char → List (List Char)
  | [] => [[]]
  | c :: cs =>
    if c = sep then [] :: splitOnChar sep cs
    else
      match splitOnChar sep cs with
      | [] => [[c]]
      | w :: ws => (c :: w) :: ws

/-- The four bytes of a 32-bit number, most significant first. -/
def bytesOfUint32 (v : Nat) : Bytes :=
  [v / 2 ^ 24 % 256, v / 2 ^ 16 % 256, v / 2 ^ 8 % 256, v % 256]

/-- A reading of IPv4 addresses in CIDR form, `a.b.c.d/n`, in the way of Go
`net.ParseCIDR`: the network is the address with the bits after the first `n`
cleared. Texts of another form are errors here. -/
def parseCIDRv4 (s : String) : Except String IPNet :=
  match splitOnChar '/' s.toList with
  | [ip, m] =>
    match (splitOnChar '.' ip).map readDecimal, readDecimal m with
    | [some a, some b, some c, some d], some n =>
      if a ≤ 255 ∧ b ≤ 255 ∧ c ≤ 255 ∧ d ≤ 255 ∧ n ≤ 32 then
        let v := a * 2 ^ 24 + b * 2 ^ 16 + c * 2 ^ 8 + d
        .ok ⟨bytesOfUint32 (v / 2 ^ (32 - n) * 2 ^ (32 - n)), n⟩
      else .error ("invalid CIDR address: " ++ s)
    | _, _ => .error ("invalid CIDR address: " ++ s)
  | _ => .error ("invalid CIDR address: " ++ s)

/-- A route check that finds every network inside 10.0.0.0/8 overlapping. -/
def overlapsTen (n : IPNet) : Option String :=
  if n.IP.head? = some 10 then some "Network already has a route on the host" else none

deriving instance DecidableEq for Except

/-! ## Lemmas on byte slices and bitmaps -/

/-- A fresh slice has the length asked for. -/
theorem length_makeBytes (n : Nat) : (makeBytes n).length = n := by
  simp [makeBytes]

/-- Copying a slice into a fresh slice of its own length gives the slice back. -/
theorem copyBytes_makeBytes_of_length (a : Bytes) (n : Nat) (h : a.length = n) :
    copyBytes (makeBytes n) a = a := by
  subst h
  simp [copyBytes, makeBytes]

/-- Go `copy` keeps the length of its destination. -/
theorem length_copyBytes_makeBytes (a : Bytes) (n : Nat) :
    (copyBytes (makeBytes n) a).length = n := by
  simp [copyBytes, makeBytes]
  omega

/-- Byte `j` of a copy into a fresh slice of length `n`: the byte of the source, or zero past its end. -/
theorem getElem?_copyBytes_makeBytes (a : Bytes) (n j : Nat) (hj : j < n) :
    (copyBytes (makeBytes n) a)[j]? = some (a[j]?.getD 0) := by
  unfold copyBytes makeBytes
  by_cases h : j < a.length
  · rw [List.getElem?_append_left (by simp; omega)]
    simp [List.getElem?_take, hj, h]
  · rw [List.getElem?_append_right (by simp; omega)]
    have h2 : a[j]? = none := by simp; omega
    simp [h2, List.getElem?_replicate]
    omega

/-- Bits inside the destination survive a copy into a fresh slice; bits past the end of the source read as clear on both sides. -/
theorem testBit_copyBytes_makeBytes (a : Bytes) (n i : Nat) (hi : i < 8 * n) :
    testBit (copyBytes (makeBytes n) a) i = testBit a i := by
  unfold testBit
  rw [getElem?_copyBytes_makeBytes a n (i / 8) (by omega)]
  cases a[i / 8]? <;> simp

/-- Clearing a bit keeps the length. -/
theorem length_Clear (a : Bytes) (k : Nat) : (Clear a k).length = a.length := by
  unfold Clear
  cases a[k / 8]? <;> simp

/-- After `Clear a k`, bit `k` is clear and every other bit is as in `a`. -/
theorem testBit_Clear (a : Bytes) (k i : Nat) :
    testBit (Clear a k) i = (testBit a i && decide (i ≠ k)) := by
  unfold Clear
  cases hk : a[k / 8]? with
  | none =>
    by_cases hik : i = k
    · subst hik; simp [testBit, hk]
    · simp [hik]
  | some b =>
    by_cases hb : i / 8 = k / 8
    · have hlt : k / 8 < a.length := by
        rcases List.getElem?_eq_some_iff.mp hk with ⟨h, _⟩
        exact h
      simp only [testBit, hb, List.getElem?_set_self hlt, hk]
      rw [Nat.testBit_and, Nat.testBit_xor, Nat.testBit_two_pow]
      have h8 : i % 8 < 8 := Nat.mod_lt _ (by decide)
      have h255 : Nat.testBit 255 (i % 8) = true := by
        interval_cases (i % 8) <;> decide
      rw [h255]
      by_cases hik : i = k
      · subst hik; simp
      · have : k % 8 ≠ i % 8 := by omega
        simp [hik, this]
    · have hik : i ≠ k := by intro h; exact hb (by rw [h])
      simp only [testBit]
      rw [List.getElem?_set_ne (Ne.symm hb)]
      simp [hik]

/-- A bit that is set lies inside the slice. -/
theorem length_of_testBit (a : Bytes) (i : Nat) (h : testBit a i = true) : i / 8 < a.length := by
  unfold testBit at h
  cases hk : a[i / 8]? with
  | none => simp [hk] at h
  | some b => exact (List.getElem?_eq_some_iff.mp hk).1

/-- Every one of the 4096 bits of `fullBitmap` is set. -/
theorem testBit_fullBitmap (i : Nat) (h : i < 4096) : testBit fullBitmap i = true := by
  unfold testBit fullBitmap
  rw [List.getElem?_replicate_of_lt (by omega)]
  have h8 : i % 8 < 8 := Nat.mod_lt _ (by decide)
  show Nat.testBit 255 (i % 8) = true
  interval_cases (i % 8) <;> decide

/-- The scan finds nothing when every bit in its window is set. -/
theorem firstClearFrom_eq_none (a : Bytes) (n i : Nat)
    (h : ∀ j, i ≤ j → j < i + n → testBit a j = true) : firstClearFrom a n i = none := by
  induction n generalizing i with
  | zero => rfl
  | succ n ih =>
    rw [firstClearFrom, if_pos (h i (le_refl _) (by omega))]
    exact ih (i + 1) (fun j h1 h2 => h j (by omega) (by omega))

/-- The scan finds `k` when bit `k` is clear and the bits of the window below it are set. -/
theorem firstClearFrom_eq_some (a : Bytes) (k : Nat) (hk : testBit a k = false) (n i : Nat)
    (hik : i ≤ k) (hkn : k < i + n) (h : ∀ j, i ≤ j → j < k → testBit a j = true) :
    firstClearFrom a n i = some k := by
  induction n generalizing i with
  | zero => omega
  | succ n ih =>
    rw [firstClearFrom]
    by_cases e : i = k
    · subst e; simp [hk]
    · rw [if_pos (h i (le_refl _) (by omega))]
      exact ih (i + 1) (by omega) (by omega) (fun j h1 h2 => h j (by omega) h2)

/-- What the scan finds lies in its window. -/
theorem firstClearFrom_ge (a : Bytes) (n i k : Nat) (h : firstClearFrom a n i = some k) :
    i ≤ k ∧ k < i + n := by
  induction n generalizing i with
  | zero => simp [firstClearFrom] at h
  | succ n ih =>
    rw [firstClearFrom] at h
    split at h
    · have := ih (i + 1) h; omega
    · simp at h; omega

/-- What the scan finds is a clear bit. -/
theorem firstClearFrom_clear (a : Bytes) (n i k : Nat) (h : firstClearFrom a n i = some k) :
    testBit a k = false := by
  induction n generalizing i with
  | zero => simp [firstClearFrom] at h
  | succ n ih =>
    rw [firstClearFrom] at h
    split at h
    · exact ih (i + 1) h
    · simp at h; subst h; simpa using ‹¬testBit a i = true›

/-- The index `TestAndSet` returns is at least 1. -/
theorem one_le_TestAndSet (a : Bytes) : 1 ≤ (TestAndSet a).1 := by
  unfold TestAndSet
  split <;> simp

/-- On a bitmap whose first 4096 bits are set, `TestAndSet` returns an index above 4096. -/
theorem TestAndSet_of_full (a : Bytes) (h : ∀ i, i < 4096 → testBit a i = true) :
    4096 < (TestAndSet a).1 := by
  unfold TestAndSet
  split
  · rename_i k hk
    have hc := firstClearFrom_clear a _ _ _ hk
    show 4096 < k + 1
    by_contra hlt
    have := h k (by omega)
    rw [hc] at this
    exact Bool.false_ne_true this
  · have := length_of_testBit a 4095 (h 4095 (by decide))
    show 4096 < 8 * a.length + 1
    omega

/-- When bit `k` is the lowest clear bit, `TestAndSet` sets it and returns `k + 1`. -/
theorem TestAndSet_of_lowest (a : Bytes) (k : Nat) (hk : testBit a k = false)
    (hlt : k < 8 * a.length) (h : ∀ j, j < k → testBit a j = true) :
    TestAndSet a = (k + 1, setBit a k) := by
  unfold TestAndSet
  rw [firstClearFrom_eq_some a k hk (8 * a.length) 0 (Nat.zero_le _) (by omega)
    (fun j _ h2 => h j h2)]

/-- For a VLAN ID in range the `uint` subtraction `vlanID - 1` does not wrap. -/
theorem uintSub_one (k : Nat) (h1 : 1 ≤ k) (h2 : k ≤ 4096) : uintSub k 1 = k - 1 := by
  unfold uintSub uintSize
  omega

/-! ## Lemmas on the store and on calls without interference -/

/-- A key just written reads back the value written. -/
theorem storeSet_same (s : Store) (store key : String) (v : Bytes) :
    storeSet s store key v store key = some v := by
  simp [storeSet]

/-- Without interference `releaseVlan` returns after one pass: the `Put` is accepted
and the bitmap written is the copy of the one read, with bit `vlanID - 1` cleared. -/
theorem releaseVlan_nil (vlanID : Nat) (s : Store) :
    releaseVlan vlanID [] s = some (storeSet s vlanStore "vlan"
      (Clear (copyBytes (makeBytes 512) ((s vlanStore "vlan").getD (makeBytes 512)))
        (uintSub vlanID 1))) := by
  simp only [releaseVlan, releaseVlanBody, Get, PutOrFail, Put, id, vlanCount]
  cases h : s vlanStore "vlan" with
  | none => simp
  | some b => simp

/-- A pass through `RequestIP` returns nil whenever the retry does: the read of the
base address into a `uint` fails. -/
theorem RequestIPBody_nil (env : Env) (subnet : IPNet) (e : Store → Store)
    (retry : Store → Option (Option Bytes × Store))
    (h : ∀ s, (retry s).bind Prod.fst = none) (s : Store) :
    (RequestIPBody env subnet e retry s).bind Prod.fst = none := by
  unfold RequestIPBody
  simp only [binaryReadUint, Option.isSome_some, if_true]
  split_ifs <;> first | exact h _ | rfl

/-- Without interference `RequestIP` returns after one pass: the `Put` is accepted,
the pool is written under `subnet.String()`, and the address returned is nil. -/
theorem RequestIP_nil (env : Env) (subnet : IPNet) (s : Store) :
    ∃ bm, RequestIP env subnet [] s
      = some (none, storeSet s ipStore (subnetString subnet) bm) := by
  simp only [RequestIP, RequestIPBody, binaryReadUint, Option.isSome_some, if_true, Get, Put, id]
  cases h : s ipStore (subnetString subnet) with
  | none =>
    refine ⟨?_, ?_⟩
    swap
    · simp; exact rfl
  | some b =>
    refine ⟨?_, ?_⟩
    swap
    · simp; exact rfl

/-- The key `ReleaseIP` reads, `subnet.IP.String()`, is never the key
`subnet.String()` under which the pool is written: the latter is longer. -/
theorem ipString_ne_subnetString (subnet : IPNet) :
    ipString subnet.IP ≠ subnetString subnet := by
  intro h
  have hl := congrArg String.length h
  have h1 : "/".length = 1 := rfl
  simp only [subnetString, String.length_append, h1] at hl
  omega

/-- With nothing stored under `subnet.IP.String()`, `ReleaseIP` answers false and
leaves the store alone. -/
theorem ReleaseIP_of_no_record (addr : Bytes) (subnet : IPNet) (s : Store)
    (h : s ipStore (ipString subnet.IP) = none) :
    ReleaseIP addr subnet [] s = some (false, s) := by
  simp [ReleaseIP, ReleaseIPBody, Get, h]

/-! ## The claims -/

/-- Claim C1 (allocate, release, allocate again, nothing else touching the store):
the claim wants `ReleaseIP` to answer true and to free the bit, so that the
second `RequestIP` takes it again. In the code `RequestIP` writes the pool under
`subnet.String()` and `ReleaseIP` looks it up under `subnet.IP.String()`: for
every subnet and every store with nothing under that second key `ReleaseIP`
answers false. For 10.1.0.0/24 on the empty store the bit stays set, the second
`RequestIP` takes the next bit, so the pool ends with bits 0 and 1 set, and both
addresses returned are nil. -/
theorem ipRoundTrip_releases_nothing :
    (∀ (env : Env) (subnet : IPNet) (s : Store),
        s ipStore (ipString subnet.IP) = none →
          (ipRoundTrip env subnet s).map (fun r => r.2.1) = some false)
      ∧ (ipRoundTrip env0 subnet0 emptyStore).map
          (fun r => (r.1, r.2.1, r.2.2.1, r.2.2.2 ipStore "10.1.0.0/24"))
        = some (none, false, none, some (3 :: List.replicate 31 0)) := by
  refine ⟨?_, by decide!⟩
  intro env subnet s h
  obtain ⟨bm, h1⟩ := RequestIP_nil env subnet s
  have hk : (storeSet s ipStore (subnetString subnet) bm) ipStore (ipString subnet.IP)
      = none := by
    simp [storeSet, ipString_ne_subnetString subnet, h]
  obtain ⟨bm2, h3⟩ := RequestIP_nil env subnet (storeSet s ipStore (subnetString subnet) bm)
  simp [ipRoundTrip, h1, ReleaseIP_of_no_record _ subnet _ hk, h3]

/-- Claim C2 (the address returned is the base address plus the allocated
position): the code never returns an address. Whatever the subnet, the store
and the interferences, a call that returns returns nil, because the read of the
base address into a `uint` fails; without interference the `Put` is accepted and
the call does return nil; for 10.1.0.0/24 on the empty store bit 0 is set and
written, and the result is nil. -/
theorem RequestIP_returns_nil :
    (∀ (env : Env) (subnet : IPNet) (es : List (Store → Store)) (s : Store),
        (RequestIP env subnet es s).bind Prod.fst = none)
      ∧ (∀ (env : Env) (subnet : IPNet) (s : Store),
        (RequestIP env subnet [] s).map Prod.fst = some none)
      ∧ (RequestIP env0 subnet0 [] emptyStore).map
          (fun r => (r.1, r.2 ipStore "10.1.0.0/24"))
        = some (none, some (1 :: List.replicate 31 0)) := by
  refine ⟨?_, ?_, by decide!⟩
  · intro env subnet es
    induction es with
    | nil => intro s; exact RequestIPBody_nil env subnet id (fun _ => none) (fun _ => rfl) s
    | cons e es ih => intro s; exact RequestIPBody_nil env subnet e _ ih s
  · intro env subnet s
    obtain ⟨bm, h⟩ := RequestIP_nil env subnet s
    rw [h]
    rfl

/-- Claim C3 (a rejected write is retried, never reported as an allocation): the
ID and the error `allocateVlan` returns do not depend on what happens to the
store between its read and its write; when another node takes VLAN 1 in
between, the write is answered `OUTDATED`, the call returns ID 1 with a nil
error all the same, and the bitmap holds the bit of the other node only. -/
theorem allocateVlan_ignores_outdated :
    (∀ (e : Store → Store) (s : Store),
        (allocateVlan e s).1.vlanID = (allocateVlan id s).1.vlanID
          ∧ (allocateVlan e s).1.err = (allocateVlan id s).1.err)
      ∧ (allocateVlan otherNode emptyStore).1 = ⟨1, none, some .OUTDATED⟩
      ∧ (allocateVlan otherNode emptyStore).2 vlanStore "vlan"
          = some (1 :: List.replicate 511 0) := by
  refine ⟨?_, by decide!, by decide!⟩
  intro e s
  simp only [allocateVlan, allocateVlanWrite]
  constructor <;> split <;> rfl

/-- Claim C4 (concurrent allocations return distinct IDs): two calls of
`allocateVlan` on a store without a VLAN record, both reading before either
writes, both return ID 1 with a nil error. -/
theorem allocateVlan_concurrent_duplicate :
    allocatedIDs (runVlanCalls [0, 1, 0, 1] ([.start, .start], emptyStore)).1 = [1, 1] := by
  decide!

/-- Claim C5 (VLAN exhaustion): whatever the store and the interference, an ID
returned with a nil error lies in [1, 4096]; and when the stored bitmap has all
of its 4096 bits set, the call returns the exhaustion error with an index above
4096, issues no write, and leaves the store as it found it. -/
theorem allocateVlan_exhaustion (e : Store → Store) (s : Store) :
    ((allocateVlan e s).1.err = none →
        1 ≤ (allocateVlan e s).1.vlanID ∧ (allocateVlan e s).1.vlanID ≤ 4096)
      ∧ ((∀ i, i < 4096 → testBit (vlanBitmap s) i = true) →
          (allocateVlan e s).1.err = some "All vlanID have been used"
            ∧ 4096 < (allocateVlan e s).1.vlanID
            ∧ (allocateVlan e s).1.put = none
            ∧ (allocateVlan e s).2 = e s) := by
  constructor
  · intro h
    simp only [allocateVlan, allocateVlanWrite, vlanCount] at h ⊢
    split_ifs at h ⊢ with hgt
    exact ⟨one_le_TestAndSet _, Nat.le_of_not_gt hgt⟩
  · intro hfull
    have hb : ∃ bm, s vlanStore "vlan" = some bm := by
      have h0 := hfull 0 (by decide)
      unfold vlanBitmap at h0
      cases hs : s vlanStore "vlan" with
      | none => rw [hs] at h0; simp [testBit] at h0
      | some bm => exact ⟨bm, rfl⟩
    obtain ⟨bm, hs⟩ := hb
    have hfull2 : ∀ i, i < 4096 → testBit bm i = true := by
      intro i hi
      have := hfull i hi
      simpa [vlanBitmap, hs] using this
    have hgt := TestAndSet_of_full bm hfull2
    simp only [allocateVlan, allocateVlanWrite, allocateVlanRead, Get, hs, vlanCount]
    rw [if_pos hgt]
    exact ⟨rfl, hgt, rfl, rfl⟩

/-- Both halves of `allocateVlan_exhaustion` at work: on the empty store the call
returns an ID in range, on a store with a full bitmap it reports exhaustion. -/
theorem allocateVlan_exhaustion_witness :
    (1 ≤ (allocateVlan id emptyStore).1.vlanID ∧ (allocateVlan id emptyStore).1.vlanID ≤ 4096)
      ∧ ((allocateVlan id fullStore).1.err = some "All vlanID have been used"
        ∧ 4096 < (allocateVlan id fullStore).1.vlanID
        ∧ (allocateVlan id fullStore).1.put = none
        ∧ (allocateVlan id fullStore).2 = id fullStore) :=
  ⟨(allocateVlan_exhaustion id emptyStore).1 (by decide!),
    (allocateVlan_exhaustion id fullStore).2 (fun i hi => testBit_fullBitmap i hi)⟩

/-- Claim C6 (release then reallocate): for `k` in [1, 4096], from a bitmap with
all 4096 bits set and without any other writer, `releaseVlan k` returns and the
following `allocateVlan` returns exactly `k` with a nil error, its write
accepted. -/
theorem releaseVlan_then_allocateVlan (k : Nat) (s : Store) (hk1 : 1 ≤ k) (hk2 : k ≤ 4096)
    (hfull : ∀ i, i < 4096 → testBit (vlanBitmap s) i = true) :
    ∃ s1, releaseVlan k [] s = some s1 ∧ (allocateVlan id s1).1 = ⟨k, none, some .OK⟩ := by
  refine ⟨_, releaseVlan_nil k s, ?_⟩
  have hb : ∃ bm, s vlanStore "vlan" = some bm := by
    have h0 := hfull 0 (by decide)
    unfold vlanBitmap at h0
    cases hs : s vlanStore "vlan" with
    | none => rw [hs] at h0; simp [testBit] at h0
    | some bm => exact ⟨bm, rfl⟩
  obtain ⟨bm, hs⟩ := hb
  have hfull2 : ∀ i, i < 4096 → testBit bm i = true := by
    intro i hi
    have := hfull i hi
    simpa [vlanBitmap, hs] using this
  rw [hs, Option.getD_some, uintSub_one k hk1 hk2]
  generalize hbm1 : Clear (copyBytes (makeBytes 512) bm) (k - 1) = bm1
  have hlen : bm1.length = 512 := by
    rw [← hbm1, length_Clear, length_copyBytes_makeBytes]
  have hbit : ∀ i, i < 4096 → testBit bm1 i = decide (i ≠ k - 1) := by
    intro i hi
    rw [← hbm1, testBit_Clear, testBit_copyBytes_makeBytes _ _ _ (by omega), hfull2 i hi]
    simp
  have htas : TestAndSet bm1 = (k - 1 + 1, setBit bm1 (k - 1)) := by
    apply TestAndSet_of_lowest
    · rw [hbit (k - 1) (by omega)]; simp
    · omega
    · intro j hj
      rw [hbit j (by omega)]
      simp; omega
  have hk : k - 1 + 1 = k := by omega
  simp only [allocateVlan, allocateVlanWrite, allocateVlanRead, Get, id, storeSet_same,
    vlanCount, copyBytes_makeBytes_of_length bm1 512 hlen, htas, hk, Put]
  rw [if_neg (by omega)]
  simp

/-- The theorem `releaseVlan_then_allocateVlan` at VLAN 7 on the full bitmap. -/
theorem releaseVlan_then_allocateVlan_witness :
    ∃ s1, releaseVlan 7 [] fullStore = some s1
      ∧ (allocateVlan id s1).1 = ⟨7, none, some .OK⟩ :=
  releaseVlan_then_allocateVlan 7 fullStore (by decide) (by decide)
    (fun i hi => by
      have h : vlanBitmap fullStore = fullBitmap := rfl
      rw [h]; exact testBit_fullBitmap i hi)

/-- Claim C7 (the bit cleared is the one of `addr`): the result of `ReleaseIP`
is the same for any two addresses; with bits 1 and 2 of the pool of 10.1.0.0/24
set, releasing 10.1.0.2 answers true and writes the bitmap back as it was, bit 2
included. -/
theorem ReleaseIP_ignores_addr :
    (∀ (addr addr2 : Bytes) (subnet : IPNet) (es : List (Store → Store)) (s : Store),
        ReleaseIP addr subnet es s = ReleaseIP addr2 subnet es s)
      ∧ testBit (6 :: List.replicate 31 0) 2 = true
      ∧ (ReleaseIP [10, 1, 0, 2] subnet0 [] leaseStore).map
          (fun r => (r.1, r.2 ipStore "10.1.0.0/24"))
        = some (true, some (6 :: List.replicate 31 0)) := by
  refine ⟨?_, by decide!, by decide!⟩
  intro addr addr2 subnet es
  induction es with
  | nil => intro s; rfl
  | cons e es ih =>
    intro s
    simp only [ReleaseIP, ReleaseIPBody]
    split
    · rfl
    · split
      · exact ih _
      · rfl

/-- Claim C8 (a new network is returned and stored): for a name without a
record, whatever `CreateNetwork` returns without error is the record with every
field at its zero value. On the empty store, for the name blue, a following
`GetNetwork` fails, nothing is stored under the name, and VLAN 1 is taken from
the bitmap. -/
theorem CreateNetwork_returns_zero_record :
    (∀ (env : Env) (name : String) (subnet : IPNet) (e : Store → Store)
        (es : List (Store → Store)) (s : Store) (err : String)
        (r : Except String Network × Store) (n : Network),
        GetNetwork env name s = .error err →
          CreateNetwork env name subnet e es s = some r → r.1 = .ok n → n = Network.zero)
      ∧ (CreateNetwork env0 "blue" subnet0 id [] emptyStore).map
          (fun r => (r.1, GetNetwork env0 "blue" r.2, r.2 networkStore "blue",
            r.2 vlanStore "vlan"))
        = some (.ok Network.zero, .error "Network blue not exist", none,
            some (1 :: List.replicate 511 0)) := by
  refine ⟨?_, by decide!⟩
  intro env name subnet e es s err r n h hr
  simp only [CreateNetwork, h] at hr
  split at hr
  · simp at hr; subst hr; simp
  · split at hr
    · simp at hr; subst hr; simp; intro h2; exact h2.symm
    · split at hr
      · simp at hr
      · simp at hr; subst hr; simp; intro h2; exact h2.symm

/-- Claim C9 (creating a network that exists): when the store holds a record
under `name` and the record decodes, `CreateNetwork` returns that network with a
nil error and the whole store (VLAN bitmap, IP pools, network records) is as
before, whatever other nodes do meanwhile. -/
theorem CreateNetwork_existing (env : Env) (name : String) (subnet : IPNet) (e : Store → Store)
    (es : List (Store → Store)) (s : Store) (netByte : Bytes) (network : Network)
    (hrec : Get s networkStore name = some netByte)
    (hdec : env.Unmarshal netByte = .ok network) :
    CreateNetwork env name subnet e es s = some (.ok network, s) := by
  simp [CreateNetwork, GetNetwork, hrec, hdec]

/-- The theorem `CreateNetwork_existing` on the store holding the record of blue. -/
theorem CreateNetwork_existing_witness :
    CreateNetwork envBlue "blue" subnet0 otherNode [otherNode] blueStore
      = some (.ok blueNet, blueStore) :=
  CreateNetwork_existing envBlue "blue" subnet0 otherNode [otherNode] blueStore blueJSON blueNet
    (by decide!) (by decide!)

/-- For 1 ≤ k < 2 ^ 64 the `uint` subtraction `k - 1` is the subtraction of
numbers. -/
theorem uintSub_one_of_pos (k : Nat) (h1 : 1 ≤ k) (h2 : k < 2 ^ 64) :
    uintSub k 1 = k - 1 := by
  unfold uintSub uintSize
  omega

/-- The reply loop ends in an error exactly when some reply carries a non-empty
error string. -/
theorem replyError_ne_none (n : Nat) (inOps : Nat → OperationResult → String)
    (extra : OperationResult → String) (i : Nat) (reply : List OperationResult) :
    replyError n inOps extra i reply ≠ none ↔ ∃ o ∈ reply, o.Error ≠ "" := by
  induction reply generalizing i with
  | nil => simp [replyError]
  | cons o rest ih =>
    rw [replyError]
    by_cases h : o.Error = ""
    · simp [h, ih]
    · by_cases hi : i < n
      · simp [h, hi]
      · simp [h, hi]

/-- A row identifier that is not in the batch of a table keeps its entry. -/
theorem populateRows_of_not_mem (t : CacheTable) (rows : List (String × RowUpdate))
    (uuid : String) (h : uuid ∉ rows.map Prod.fst) : populateRows t rows uuid = t uuid := by
  induction rows generalizing t with
  | nil => rfl
  | cons p rest ih =>
    obtain ⟨u, row⟩ := p
    simp only [List.map_cons, List.mem_cons, not_or] at h
    rw [populateRows]
    split_ifs
    · rw [ih _ h.2]; simp [h.1]
    · rw [ih _ h.2]; simp [h.1]

/-- A row identifier of the batch ends absent when its new row is empty, and bound to
its new row otherwise. -/
theorem populateRows_of_mem (t : CacheTable) (rows : List (String × RowUpdate))
    (uuid : String) (row : RowUpdate) (hnd : (rows.map Prod.fst).Nodup)
    (h : (uuid, row) ∈ rows) :
    populateRows t rows uuid = if row.New = Row.empty then none else some row.New := by
  induction rows generalizing t with
  | nil => simp at h
  | cons p rest ih =>
    obtain ⟨u, r⟩ := p
    simp only [List.map_cons, List.nodup_cons] at hnd
    rw [populateRows]
    rcases List.mem_cons.mp h with heq | hmem
    · obtain ⟨hu, hr⟩ := Prod.mk.inj heq
      subst hu; subst hr
      by_cases h1 : row.New = Row.empty
      · rw [if_neg (not_not.mpr h1), populateRows_of_not_mem _ _ _ hnd.1, if_pos h1]
        simp
      · rw [if_pos h1, populateRows_of_not_mem _ _ _ hnd.1, if_neg h1]
        simp
    · by_cases h1 : r.New = Row.empty
      · rw [if_neg (not_not.mpr h1)]
        exact ih _ hnd.2 hmem
      · rw [if_pos h1]
        exact ih _ hnd.2 hmem

/-- A table that is not in the batch is left as it is. -/
theorem populateCache_of_not_mem (cache : Cache) (updates : TableUpdates) (table : String)
    (h : table ∉ updates.map Prod.fst) : populateCache cache updates table = cache table := by
  induction updates generalizing cache with
  | nil => rfl
  | cons p rest ih =>
    obtain ⟨tb, tu⟩ := p
    simp only [List.map_cons, List.mem_cons, not_or] at h
    rw [populateCache]
    rw [ih _ h.2]
    simp only [h.1, if_false]
    split_ifs <;> simp [h.1]

/-- A table of the batch ends as its former content, or an empty table when it was
not there, run through the row updates of the batch. -/
theorem populateCache_of_mem (cache : Cache) (updates : TableUpdates) (table : String)
    (tu : TableUpdate) (hnd : (updates.map Prod.fst).Nodup) (h : (table, tu) ∈ updates) :
    populateCache cache updates table
      = some (populateRows ((cache table).getD (fun _ => none)) tu.Rows) := by
  induction updates generalizing cache with
  | nil => simp at h
  | cons p rest ih =>
    obtain ⟨tb, tu2⟩ := p
    simp only [List.map_cons, List.nodup_cons] at hnd
    rw [populateCache]
    rcases List.mem_cons.mp h with heq | hmem
    · obtain ⟨h1, h2⟩ := Prod.mk.inj heq
      subst h1; subst h2
      rw [populateCache_of_not_mem _ _ _ hnd.1]
      simp only [if_true]
      cases hc : cache table <;> simp [hc]
    · have hne : table ≠ tb := by
        intro heq
        subst heq
        exact hnd.1 (List.mem_map_of_mem Prod.fst hmem)
      rw [ih _ hnd.2 hmem]
      simp only [hne, if_false]
      split_ifs <;> simp [hne]

/-- A string of length zero is the empty string. -/
theorem eq_empty_of_length_eq_zero (s : String) (h : s.length = 0) : s = "" := by
  cases s with
  | mk data =>
    simp only [String.length, List.length_eq_zero] at h
    subst h
    rfl

/-- No entry of `gatewayAddrs` is the empty string. -/
theorem gatewayAddrs_ne_empty (addr : String) (h : addr ∈ gatewayAddrs) : addr ≠ "" := by
  intro he
  subst he
  revert h
  decide

/-- When every address parses, the loop leaves `gwaddr` at the first address that
passes the route check, or empty when none does. -/
theorem scanGatewayAddrs_eq (ParseCIDR : String → Except String IPNet)
    (CheckRouteOverlaps : IPNet → Option String) (addrs : List String)
    (hparse : ∀ addr ∈ addrs, (ParseCIDR addr).toOption.isSome = true) :
    scanGatewayAddrs ParseCIDR CheckRouteOverlaps addrs
      = .ok ((addrs.find? (passesRouteCheck ParseCIDR CheckRouteOverlaps)).getD "") := by
  induction addrs with
  | nil => rfl
  | cons addr rest ih =>
    have h1 := hparse addr (List.mem_cons_self _ _)
    have ih2 := ih (fun a ha => hparse a (List.mem_cons_of_mem _ ha))
    rw [scanGatewayAddrs, List.find?_cons]
    cases hp : ParseCIDR addr with
    | error err => rw [hp] at h1; simp [Except.toOption] at h1
    | ok dockerNetwork =>
      have hpass : passesRouteCheck ParseCIDR CheckRouteOverlaps addr
          = (CheckRouteOverlaps dockerNetwork).isNone := by
        simp [passesRouteCheck, hp]
      rw [hpass]
      cases hc : CheckRouteOverlaps dockerNetwork with
      | none => simp [hc]
      | some e => simp only [hc, Option.isNone_some]; exact ih2

/-! ## The claims on the driver, the listener, the API and the gateways -/

/-- Claim C11 (transaction failure detection): whatever the switch replies, each
of `CreateOVSBridge`, `DeleteOVSBridge`, `AddInternalPort` and
`UpdatePortContext` returns a non-nil error exactly when the replies are fewer
than the statements submitted or some reply carries a non-empty error string.
So a bridge creation with a failing statement never reports success. -/
theorem transaction_failure_detected (ovsClient : OvsdbClient) (fmtOp : Operation → String)
    (rootUuid bridgeName bridgeUuid portName key context : String) (tag : Nat) :
    ((CreateOVSBridge ovsClient rootUuid bridgeName).2 ≠ none ↔
        replyFailed (createBridgeOperations rootUuid bridgeName)
          (ovsClient.Transact "Open_vSwitch" (createBridgeOperations rootUuid bridgeName)))
      ∧ (DeleteOVSBridge ovsClient rootUuid bridgeName bridgeUuid ≠ none ↔
        replyFailed (deleteBridgeOperations rootUuid bridgeName bridgeUuid)
          (ovsClient.Transact "Open_vSwitch"
            (deleteBridgeOperations rootUuid bridgeName bridgeUuid)))
      ∧ (AddInternalPort ovsClient fmtOp bridgeName portName tag ≠ none ↔
        replyFailed (addInternalPortOperations bridgeName portName tag)
          (ovsClient.Transact "Open_vSwitch"
            (addInternalPortOperations bridgeName portName tag)))
      ∧ (UpdatePortContext ovsClient fmtOp portName key context ≠ none ↔
        replyFailed (updatePortContextOperations portName key context)
          (ovsClient.Transact "Open_vSwitch"
            (updatePortContextOperations portName key context))) := by
  refine ⟨?_, ?_, ?_, ?_⟩
  · unfold CreateOVSBridge replyFailed
    simp only []
    split_ifs with hlen
    · simp [hlen]
    · have := replyError_ne_none (createBridgeOperations rootUuid bridgeName).length
        (fun _ o => "Transaction Failed due to an error :" ++ o.Error ++ " details : "
          ++ o.Details)
        (fun o => "Transaction Failed due to an error :" ++ o.Error ++ " details : "
          ++ o.Details) 0
        (ovsClient.Transact "Open_vSwitch" (createBridgeOperations rootUuid bridgeName))
      rw [← this]
      split
      · rename_i err herr
        simp [hlen, herr]
      · rename_i herr
        simp only [herr, hlen, false_or]
        constructor
        · intro h; split at h <;> simp at h
        · intro h; exact absurd rfl h
  · unfold DeleteOVSBridge replyFailed
    simp only []
    split_ifs with hlen
    · simp [hlen]
    · rw [replyError_ne_none]; simp [hlen]
  · unfold AddInternalPort replyFailed
    simp only []
    split_ifs with hlen
    · simp [hlen]
    · rw [replyError_ne_none]; simp [hlen]
  · unfold UpdatePortContext replyFailed
    simp only []
    split_ifs with hlen
    · simp [hlen]
    · rw [replyError_ne_none]; simp [hlen]

/-- Claim C12 (a successful bridge creation returns the identifier of the
bridge): the claim wants the UUID of the reply to the Bridge insert, the third
statement. `CreateOVSBridge` returns `reply[0].UUID.GoUuid`: whenever it returns
without error, the string returned is the UUID of the first reply, which answers
the Interface insert. On four successful replies it returns the identifier of
the interface, not the one of the bridge. -/
theorem CreateOVSBridge_returns_first_reply_uuid :
    (∀ (ovsClient : OvsdbClient) (rootUuid bridgeName : String) (o : OperationResult)
        (rest : List OperationResult),
        ovsClient.Transact "Open_vSwitch" (createBridgeOperations rootUuid bridgeName)
            = o :: rest →
          (CreateOVSBridge ovsClient rootUuid bridgeName).2 = none →
            (CreateOVSBridge ovsClient rootUuid bridgeName).1 = o.UUID)
      ∧ ((createBridgeOperations "uuid-of-root" "ovs-br0").map (fun op => (op.Op, op.Table))
          = [("insert", "Interface"), ("insert", "Port"), ("insert", "Bridge"),
            ("mutate", "Open_vSwitch")])
      ∧ bridgeReplies.map (fun o => o.UUID)
          = ["uuid-of-interface", "uuid-of-port", "uuid-of-bridge", ""]
      ∧ CreateOVSBridge bridgeClient "uuid-of-root" "ovs-br0" = ("uuid-of-interface", none) := by
  refine ⟨?_, by decide, by decide, by decide⟩
  intro ovsClient rootUuid bridgeName o rest hreply
  unfold CreateOVSBridge
  simp only [hreply]
  split_ifs with hlen
  · simp
  · split
    · simp
    · simp

/-- Claim C13 (cache merge): for every cache and every batch of table updates, the
batch being a Go map of Go maps (no key twice), after `populateCache` each
table and row identifier of the batch whose new row is empty is absent from the
cache, each one whose new row is not empty is bound to exactly that row, and
every entry whose table and row identifier are not in the batch is as before. -/
theorem populateCache_merge (cache : Cache) (updates : TableUpdates) (hkeys : updates.distinctKeys) :
    (∀ table tableUpdate uuid row,
        (table, tableUpdate) ∈ updates → (uuid, row) ∈ tableUpdate.Rows →
          cacheRow (populateCache cache updates) table uuid
            = if row.New = Row.empty then none else some row.New)
      ∧ (∀ table uuid,
          (¬ ∃ tableUpdate row, (table, tableUpdate) ∈ updates ∧ (uuid, row) ∈ tableUpdate.Rows) →
            cacheRow (populateCache cache updates) table uuid = cacheRow cache table uuid) := by
  obtain ⟨hT, hR⟩ := hkeys
  constructor
  · intro table tu uuid row ht hr
    unfold cacheRow
    rw [populateCache_of_mem cache updates table tu hT ht]
    show populateRows _ _ uuid = _
    exact populateRows_of_mem _ _ _ _ (hR _ ht) hr
  · intro table uuid hnot
    unfold cacheRow
    by_cases ht : table ∈ updates.map Prod.fst
    · obtain ⟨p, hp, hpt⟩ := List.mem_map.mp ht
      obtain ⟨tb, tu⟩ := p
      simp only at hpt
      subst hpt
      rw [populateCache_of_mem cache updates tb tu hT hp]
      show populateRows _ _ uuid = _
      have hu : uuid ∉ tu.Rows.map Prod.fst := by
        intro hmem
        obtain ⟨q, hq, hqu⟩ := List.mem_map.mp hmem
        obtain ⟨u, r⟩ := q
        simp only at hqu
        subst hqu
        exact hnot ⟨tu, r, hp, hq⟩
      rw [populateRows_of_not_mem _ _ _ hu]
      cases cache tb <;> rfl
    · rw [populateCache_of_not_mem cache updates table ht]

/-- The theorem `populateCache_merge` on a cache holding the ports p1 and p2 and a
batch that deletes p1 and inserts p3 and the bridge b1: p1 is gone, p3 and b1
are there, p2 is as before. -/
theorem populateCache_merge_witness :
    cacheRow (populateCache cache0 updates0) "Port" "p1" = none
      ∧ cacheRow (populateCache cache0 updates0) "Port" "p3" = some (namedRow "eth3")
      ∧ cacheRow (populateCache cache0 updates0) "Bridge" "b1" = some (namedRow "ovs-br0")
      ∧ cacheRow (populateCache cache0 updates0) "Port" "p2" = some (namedRow "eth2") := by
  have h := populateCache_merge cache0 updates0 ⟨by decide, by decide⟩
  refine ⟨?_, ?_, ?_, ?_⟩
  · exact h.1 "Port" portUpdate0 "p1" ⟨"p1", Row.empty, namedRow "eth1"⟩
      (by decide) (by decide)
  · exact h.1 "Port" portUpdate0 "p3" ⟨"p3", namedRow "eth3", Row.empty⟩
      (by decide) (by decide)
  · exact h.1 "Bridge" bridgeUpdate0 "b1" ⟨"b1", namedRow "ovs-br0", Row.empty⟩
      (by decide) (by decide)
  · have hnot : ¬ ∃ tableUpdate row,
        ("Port", tableUpdate) ∈ updates0 ∧ ("p2", row) ∈ tableUpdate.Rows := by
      rintro ⟨tableUpdate, row, h1, h2⟩
      simp only [updates0, List.mem_cons, Prod.mk.injEq, List.mem_singleton] at h1
      rcases h1 with ⟨_, h1⟩ | ⟨h1, _⟩ | h1
      · subst h1
        simp [portUpdate0] at h2
      · exact absurd h1 (by decide)
      · simp at h1
    rw [h.2 "Port" "p2" hnot]
    decide

/-- Claim C14 (self-tunnel guard): for every local address and every node address
`a`, an add notification makes the one call `AddPeer a` when `a` differs from
the local address and no call at all when it equals it, and never a
`DeletePeer`; a delete notification makes the one call `DeletePeer a`, hence no
`AddPeer`. -/
theorem NotifyNodeUpdate_calls (myIp a : String) :
    NotifyNodeUpdate myIp .NOTIFY_UPDATE_ADD a = (if a ≠ myIp then [.AddPeer a] else [])
      ∧ NotifyNodeUpdate myIp .NOTIFY_UPDATE_ADD myIp = []
      ∧ (∀ b, PeerCall.DeletePeer b ∉ NotifyNodeUpdate myIp .NOTIFY_UPDATE_ADD a)
      ∧ NotifyNodeUpdate myIp .NOTIFY_UPDATE_DELETE a = [.DeletePeer a] := by
  refine ⟨by simp [NotifyNodeUpdate], by simp [NotifyNodeUpdate], ?_, by simp [NotifyNodeUpdate]⟩
  intro b
  unfold NotifyNodeUpdate
  by_cases h : a = myIp <;> simp [h]

/-- Claim C15 (disconnect of an unknown container): when `containerId` is not a
key of the connection map, `delConn` returns the error 404 "container not
found" and the daemon is as before: nothing is sent on the connection channel
and the connection map is the same. -/
theorem delConn_unknown (d : Daemon) (containerId : String) (h : d.connections containerId = none) :
    delConn d containerId = (some ⟨404, "container not found"⟩, d) := by
  simp [delConn, h]

/-- The theorem `delConn_unknown` for the container c2 on a daemon that knows c1
only. -/
theorem delConn_unknown_witness :
    delConn daemon0 "c2" = (some ⟨404, "container not found"⟩, daemon0) :=
  delConn_unknown daemon0 "c2" (by decide)

/-- Claim C16 (gateway first-fit): for every route check, and every `ParseCIDR`
that reads the twelve entries of `gatewayAddrs`, `GetAvailableGwAddress ""`
returns the first entry, in list order, whose network passes the check, and it
returns the error "No available gateway addresses" exactly when no entry
passes. For a non-empty `bridgeIP` it returns `bridgeIP` itself when it parses,
and the empty address with the error of the parse otherwise. -/
theorem GetAvailableGwAddress_first_fit (ParseCIDR : String → Except String IPNet)
    (CheckRouteOverlaps : IPNet → Option String)
    (hparse : ∀ addr ∈ gatewayAddrs, (ParseCIDR addr).toOption.isSome = true) :
    (GetAvailableGwAddress ParseCIDR CheckRouteOverlaps ""
        = match gatewayAddrs.find? (passesRouteCheck ParseCIDR CheckRouteOverlaps) with
          | some addr => (addr, none)
          | none => ("", some "No available gateway addresses"))
      ∧ ((GetAvailableGwAddress ParseCIDR CheckRouteOverlaps "").2
          = some "No available gateway addresses" ↔
        ∀ addr ∈ gatewayAddrs, passesRouteCheck ParseCIDR CheckRouteOverlaps addr = false)
      ∧ (∀ bridgeIP, bridgeIP ≠ "" →
          (∀ n, ParseCIDR bridgeIP = .ok n →
              GetAvailableGwAddress ParseCIDR CheckRouteOverlaps bridgeIP = (bridgeIP, none))
            ∧ (∀ err, ParseCIDR bridgeIP = .error err →
              GetAvailableGwAddress ParseCIDR CheckRouteOverlaps bridgeIP = ("", some err))) := by
  have hfirst : GetAvailableGwAddress ParseCIDR CheckRouteOverlaps ""
      = match gatewayAddrs.find? (passesRouteCheck ParseCIDR CheckRouteOverlaps) with
        | some addr => (addr, none)
        | none => ("", some "No available gateway addresses") := by
    unfold GetAvailableGwAddress
    have h0 : ("" : String).length = 0 := rfl
    simp only [h0, ne_eq, not_true_eq_false, if_false,
      scanGatewayAddrs_eq ParseCIDR CheckRouteOverlaps gatewayAddrs hparse]
    cases hf : gatewayAddrs.find? (passesRouteCheck ParseCIDR CheckRouteOverlaps) with
    | none => simp
    | some addr =>
      have hne := gatewayAddrs_ne_empty addr (List.mem_of_find?_eq_some hf)
      simp [hne]
  refine ⟨hfirst, ?_, ?_⟩
  · rw [hfirst]
    cases hf : gatewayAddrs.find? (passesRouteCheck ParseCIDR CheckRouteOverlaps) with
    | none =>
      simp only [true_iff]
      intro addr ha
      have := List.find?_eq_none.mp hf addr ha
      simpa using this
    | some addr =>
      simp only [false_iff, reduceCtorEq]
      intro hall
      have h1 := hall addr (List.mem_of_find?_eq_some hf)
      have h2 := List.find?_some hf
      rw [h1] at h2
      exact Bool.false_ne_true h2
  · intro bridgeIP hne
    have hlen : bridgeIP.length ≠ 0 := fun h => hne (eq_empty_of_length_eq_zero _ h)
    constructor
    · intro n hn
      simp [GetAvailableGwAddress, hlen, hn, hne]
    · intro err herr
      simp [GetAvailableGwAddress, hlen, herr]

/-- The theorem `GetAvailableGwAddress_first_fit` with the IPv4 reading of CIDR
texts and a route check that rejects the networks inside 10.0.0.0/8: the twelve
entries parse, and the address chosen is the third entry. -/
theorem GetAvailableGwAddress_first_fit_witness :
    GetAvailableGwAddress parseCIDRv4 overlapsTen "" = ("172.16.42.1/24", none) := by
  have h := (GetAvailableGwAddress_first_fit parseCIDRv4 overlapsTen (by decide!)).1
  rw [h]
  decide!

end CxySdn
